import Mathlib

/-!
Verification development for the `public_server` repository: the
error-response normalizer (`main.py`) and the environment configuration
loader (`utils/env.py`), shallowly embedded in Lean 4.

Python strings are `String`, Python `None`-able strings are `Option String`,
mutable dicts are association lists threaded explicitly, and raised
exceptions are `Except` errors.
-/

set_option autoImplicit false

namespace PublicServer

/-- Modelled from the spec: the `ErrorInfo` record of
`public_server/schemas/response_info.py`, which is not under `src/`.
The spec (§3) gives the fields: `code` (integer), `reason` (slug),
`message` (human-readable text), `http_status`. -/
structure RespInfo where
  code : Int
  reason : String
  message : String
  http_status : Nat
  deriving DecidableEq, Repr

/-- Modelled from the spec: the copy-and-replace `with_message` operation of
`response_info.py` (not under `src/`). The spec (§3) says it returns a new
`ErrorInfo` with a substituted message, the original never mutated; the call
site `integrity_exception_handler` in `main.py` additionally passes a
`reason` keyword, so the model takes an optional reason that overrides the
record's reason when supplied. -/
def RespInfo.with_message (e : RespInfo) (message : String)
    (reason : Option String) : RespInfo :=
  { e with message := message, reason := reason.getD e.reason }

/-- Modelled from the spec: the catalog entry `RSINFO.REQUEST_VALIDATION_ERROR`
(`response_info.py` is not under `src/`). The concrete numeric code and
status are not recorded in `src/`; the theorems below compare results
against this entry symbolically, so only its identity matters. -/
def RSINFO.REQUEST_VALIDATION_ERROR : RespInfo :=
  { code := 1, reason := "REQUEST_VALIDATION_ERROR",
    message := "request validation error", http_status := 422 }

/-- Modelled from the spec: the catalog entry `RSINFO.OK` (`response_info.py`
is not under `src/`); the success entry, `code` 0 per the fallback path of
`response_for_error` and the wire format of §6. -/
def RSINFO.OK : RespInfo :=
  { code := 0, reason := "OK", message := "success", http_status := 200 }

/-- Modelled from the spec: the catalog entry `RFInfo.FAILED`
(`response_info.py` is not under `src/`). Concrete values are not recorded
in `src/`; theorems compare against the entry symbolically. -/
def RFInfo.FAILED : RespInfo :=
  { code := -1, reason := "FAILED", message := "failed", http_status := 400 }

/-- A Python exception value as observed by `response_for_error`:
its class name (`exception.__class__.__name__`) and its `str()` text. -/
structure PyExc where
  typeName : String
  text : String
  deriving DecidableEq, Repr

/-- The dynamically-typed first argument of `response_for_error`: either a
`RespInfo` instance (the `isinstance(error, RespInfo)` branch) or an
arbitrary value represented by its `str()` rendering. -/
inductive ErrValue where
  | info (e : RespInfo)
  | other (s : String)
  deriving DecidableEq, Repr

/-- The JSON body `{code, reason, message}` built by `response_for_error`. -/
structure JSONBody where
  code : Int
  reason : String
  message : String
  deriving DecidableEq, Repr

/-- A `JSONResponse`: body plus transport-level HTTP status code. -/
structure HTTPResponse where
  body : JSONBody
  status_code : Nat
  deriving DecidableEq, Repr

/-- Starlette's `JSONResponse` default status code, used when
`response_for_error` builds a response without an explicit `status_code`. -/
def JSONResponse_default_status : Nat := 200

/-- `response_for_error` from `main.py` (lines 66-99). The `request`
parameter has no observable effect (its branch is `pass`) and is omitted.
If `error` is a `RespInfo` and an exception is supplied, the error is recast
as `RSINFO.REQUEST_VALIDATION_ERROR` carrying the formatted message
`"<type name>: <str(exc)>"`; a non-`RespInfo` error yields
`{code: 0, reason: str(error), message: str(error)}` with the default
status. -/
def response_for_error (error : ErrValue) (exception : Option PyExc) :
    HTTPResponse :=
  match error with
  | .info e =>
    let e :=
      match exception with
      | some exc =>
        RSINFO.REQUEST_VALIDATION_ERROR.with_message
          (exc.typeName ++ ": " ++ exc.text) none
      | none => e
    { body := { code := e.code, reason := e.reason, message := e.message },
      status_code := e.http_status }
  | .other s =>
    { body := { code := 0, reason := s, message := s },
      status_code := JSONResponse_default_status }

/-- `validation_exception_handler` from `main.py` (lines 102-105). -/
def validation_exception_handler : HTTPResponse :=
  response_for_error (.info RSINFO.REQUEST_VALIDATION_ERROR) none

/-- `assert_exception_handler` from `main.py` (lines 108-111); `excText`
is `str(exc)` for the caught `AssertionError`. -/
def assert_exception_handler (excText : String) : HTTPResponse :=
  response_for_error (.info (RFInfo.FAILED.with_message excText none)) none

/-- A `sqlalchemy.exc.IntegrityError` as observed by
`integrity_exception_handler`: only its `code` attribute is inspected
(`None` by default in sqlalchemy, hence an `Option`). -/
structure IntegrityError where
  code : Option String
  deriving DecidableEq, Repr

/-- `integrity_exception_handler` from `main.py` (lines 120-125): driver
code `"gkpj"` is normalized to `FAILED` with message `"数据已存在"` and
reason `"data exist"`; any other code re-raises the exception
(`Except.error`). -/
def integrity_exception_handler (exc : IntegrityError) :
    Except IntegrityError HTTPResponse :=
  if exc.code = some "gkpj" then
    .ok (response_for_error
      (.info (RFInfo.FAILED.with_message "数据已存在" (some "data exist"))) none)
  else
    .error exc

/-! ## Environment configuration loader (`utils/env.py`) -/

/-- The process environment as seen by `os.getenv`: a map from variable
name to optional raw text. -/
abbrev Environ : Type := String → Option String

/-- The partial-masking computation of `Env.general_loader` (lines 42-46 of
`env.py`), applied to the Python-dynamic view of the loaded value
(`some s` when the value is a `str`, `none` otherwise): a truthy string
longer than 10 characters keeps its first 4 and last 4 characters with
`"**"` in between; everything else is masked to `"**"`. -/
def redact_secret (view : Option String) : String :=
  match view with
  | some s =>
    if s ≠ "" ∧ s.length > 10 then
      s.take 4 ++ "**" ++ s.drop (s.length - 4)
    else "**"
  | none => "**"

/-- The `log_value` computed by `Env.general_loader`: the value itself when
`contains_secret` is false, its redacted form otherwise. It is computed and
discarded by the source. -/
def log_view (view : Option String) (contains_secret : Bool) : Option String :=
  if contains_secret then some (redact_secret view) else view

namespace Env

/-- `Env.general_loader` (lines 16-47 of `env.py`): read the named
environment variable; if absent return the default untouched, otherwise
apply the type-specific loader to the raw text (a loader failure is a
raised exception, `Except.error`). `toView` is the Python-dynamic string
view of a value (`some` for `str` values, `none` otherwise), needed only by
the discarded `log_value` computation. -/
def general_loader {T : Type} (envm : Environ) (name : String)
    (loader : String → Except String T) (default : T)
    (toView : T → Option String) (contains_secret : Bool) :
    Except String T := do
  let value ← match envm name with
    | some s => loader s
    | none => pure default
  let _log_value := log_view (toView value) contains_secret
  return value

/-- Is `c` a decimal digit (by code point, so the test kernel-reduces). -/
def isDigitChar (c : Char) : Bool := 48 ≤ c.toNat && c.toNat ≤ 57

/-- Are all characters decimal digits. -/
def allDigits : List Char → Bool
  | [] => true
  | c :: rest => isDigitChar c && allDigits rest

/-- The natural number denoted by a digit list (most significant first). -/
def natOfDigits (l : List Char) : Nat :=
  l.foldl (fun n c => n * 10 + (c.toNat - 48)) 0

/-- Strip leading and trailing spaces. -/
def trimSpaces (l : List Char) : List Char :=
  ((l.dropWhile (fun c => c == ' ')).reverse.dropWhile (fun c => c == ' ')).reverse

/-- A signed decimal integer literal: optional `-`/`+` sign then one or
more digits; `none` if the text is not of that shape. -/
def intOfChars : List Char → Option Int
  | '-' :: ds => if ds ≠ [] ∧ allDigits ds then some (-(natOfDigits ds : Int)) else none
  | '+' :: ds => if ds ≠ [] ∧ allDigits ds then some (natOfDigits ds : Int) else none
  | ds => if ds ≠ [] ∧ allDigits ds then some (natOfDigits ds : Int) else none

/-- Modelled stdlib: Python `int(v)` on the decimal fragment exercised here
(optional surrounding spaces, optional sign, digits); any other text raises
`ValueError`. -/
def py_int (v : String) : Except String Int :=
  match intOfChars (trimSpaces v.data) with
  | some n => .ok n
  | none => .error ("invalid literal for int() with base 10: " ++ v)

/-- `Env.int` (lines 49-75 of `env.py`): `general_loader` with the `int`
conversion. -/
def int (envm : Environ) (name : String) (default : Int)
    (contains_secret : Bool) : Except String Int :=
  general_loader envm name py_int default (fun _ => none) contains_secret

/-- `Env.string` (lines 133-160 of `env.py`): `general_loader` with the
identity `str` conversion, which never fails. -/
def string (envm : Environ) (name : String) (default : String)
    (contains_secret : Bool) : Except String String :=
  general_loader envm name (fun v => .ok v) default
    (fun s => some s) contains_secret

/-- Python `v.lower()` (character-wise, which matches it on ASCII text). -/
def py_lower (v : String) : String := ⟨v.data.map Char.toLower⟩

/-- `Env.boolean` (lines 192-219 of `env.py`): `general_loader` with the
conversion `v.lower() in {"true", "1", "yes"}`, which never fails. -/
def boolean (envm : Environ) (name : String) (default : Bool)
    (contains_secret : Bool) : Except String Bool :=
  general_loader envm name
    (fun v => .ok (["true", "1", "yes"].contains (py_lower v))) default
    (fun _ => none) contains_secret

end Env

/-! ## `Env.auto_load` (`env.py` lines 221-272) -/

/-- A Python value held in a settings mapping, as far as `auto_load`
distinguishes them: `None`, a `str`, or a non-`None` non-`str` value
(the literals the reparse path produces: integers and booleans). -/
inductive PyValue where
  | pynone
  | pybool (b : Bool)
  | pyint (n : Int)
  | pystr (s : String)
  deriving DecidableEq, Repr

/-- `isinstance(v, str)` for a `PyValue`. -/
def PyValue.isStr : PyValue → Bool
  | .pystr _ => true
  | _ => false

/-- A settings mapping (`settings` in `auto_load`): an insertion-ordered
association list, as a Python dict. -/
abbrev Settings : Type := List (String × PyValue)

/-- `settings[key]` lookup (`key in settings` is `(lookup ...).isSome`). -/
def lookup : Settings → String → Option PyValue
  | [], _ => none
  | (k0, v0) :: rest, k => if k0 = k then some v0 else lookup rest k

/-- `settings[key] = value`: replace in place if the key exists, else
append, preserving dict insertion order. -/
def update : Settings → String → PyValue → Settings
  | [], k, v => [(k, v)]
  | (k0, v0) :: rest, k, v =>
    if k0 = k then (k, v) :: rest else (k0, v0) :: update rest k v

/-- Modelled stdlib: `json.loads` restricted to the scalar literals the
settings overlay uses (spec §9: numbers, booleans, null, quoted strings);
any other text raises, signalled by `none`. -/
def py_json_loads (v : String) : Option PyValue :=
  match Env.intOfChars (Env.trimSpaces v.data) with
  | some n => some (.pyint n)
  | none =>
    if v = "true" then some (.pybool true)
    else if v = "false" then some (.pybool false)
    else if v = "null" then some .pynone
    else if v.length ≥ 2 ∧ v.data.head? = some '"' ∧ v.data.getLast? = some '"' then
      some (.pystr ⟨(v.data.drop 1).dropLast⟩)
    else none

/-- Modelled stdlib: `ast.literal_eval` restricted to the same scalar
fragment with Python spellings (`True`, `False`, `None`); any other text
raises, signalled by `none`. -/
def py_literal (v : String) : Option PyValue :=
  match Env.intOfChars (Env.trimSpaces v.data) with
  | some n => some (.pyint n)
  | none =>
    if v = "True" then some (.pybool true)
    else if v = "False" then some (.pybool false)
    else if v = "None" then some .pynone
    else none

/-- The `try json.loads / except ast.literal_eval` chain of `auto_load`
(lines 265-270 of `env.py`): `none` means both raised, so the exception
propagates out of `auto_load`. -/
def reparse (v : String) : Option PyValue :=
  match py_json_loads v with
  | some pv => some pv
  | none => py_literal v

/-- Two consecutive underscores somewhere in the character list. -/
def hasDoubleUnderscore : List Char → Bool
  | '_' :: '_' :: _ => true
  | _ :: rest => hasDoubleUnderscore rest
  | [] => false

/-- `sep in key` for `sep = "__"`. -/
def containsSep (k : String) : Bool := hasDoubleUnderscore k.data

/-- Python `name.replace(".", "__")` (single-character pattern, as
`auto_load` uses it). -/
def replaceDots : List Char → List Char
  | [] => []
  | c :: rest =>
    if c == '.' then '_' :: '_' :: replaceDots rest else c :: replaceDots rest

/-- The settings prefix computed by `auto_load`:
`str(name).replace(".", "__")`. -/
def settingsPre (name : String) : String := ⟨replaceDots name.data⟩

/-- The body of `auto_load`'s `for key, value in os.environ.items()` loop
(lines 254-272 of `env.py`) for one environment entry, threading the
mutated settings mapping; `sp` is the computed settings prefix. Note the
source tests `key.startswith(settings_prefix)` (without the separator) and
then strips `len(settings_prefix) + len(sep)` characters. -/
def auto_load_step (sp : String) (settings : Settings)
    (kv : String × String) : Except String Settings :=
  if ¬ List.isPrefixOf sp.data kv.1.data then .ok settings
  else
    let key := kv.1.drop (sp.length + 2)
    if key = "" ∨ containsSep key then .ok settings
    else
      match lookup settings key with
      | some ex =>
        if ex ≠ .pynone ∧ ex.isStr = false then
          match reparse kv.2 with
          | some pv => .ok (update settings key pv)
          | none => .error ("malformed value for " ++ key)
        else .ok (update settings key (.pystr kv.2))
      | none => .ok (update settings key (.pystr kv.2))

/-- The error message raised by `auto_load` on a separator-less name. -/
def invalid_name_msg (name : String) : String :=
  "Invalid settings module name " ++ name ++
    ". Please import it with full package name"

/-- `Env.auto_load` (lines 221-272 of `env.py`) with the name and settings
mapping passed explicitly (the caller-frame introspection branch only
supplies these two values). The process environment is the insertion-ordered
list `environ`; the mutated settings mapping is returned, and a raised
exception is `Except.error`. -/
def auto_load (name : String) (environ : List (String × String))
    (settings : Settings) : Except String Settings :=
  if ¬ name.data.contains '.' then .error (invalid_name_msg name)
  else
    environ.foldlM (auto_load_step (settingsPre name)) settings

/-! ## Theorems -/

/-- C1: for every value `error` that is not a `RespInfo` instance,
`response_for_error error` returns the JSON body
`{code: 0, reason: str(error), message: str(error)}` with the default
success HTTP status 200, regardless of what `error` stringifies to. -/
theorem response_for_error_fallback_ok (s : String) :
    response_for_error (.other s) none =
      { body := { code := 0, reason := s, message := s }, status_code := 200 } :=
  rfl

/-- C2: for every `RespInfo` value `e` and message `m`, `e.with_message m`
(no reason override) yields a record with the same `code`, `reason` and
`http_status` as `e` and with `message = m`; `with_message` is a pure
function of `e`, so the original record is unchanged. -/
theorem with_message_preserves_catalog_fields (e : RespInfo) (m : String) :
    (e.with_message m none).code = e.code ∧
    (e.with_message m none).reason = e.reason ∧
    (e.with_message m none).http_status = e.http_status ∧
    (e.with_message m none).message = m :=
  ⟨rfl, rfl, rfl, rfl⟩

/-- C3: for every `RespInfo` value `error` and every supplied exception
`exc`, `response_for_error error exc` returns a body whose message is
`"<exception type name>: <str(exc)>"` and whose code, reason and HTTP
status are those of the catalog's `REQUEST_VALIDATION_ERROR` entry: the
passed-in error is recast and only the formatted message is retained. -/
theorem response_for_error_exception_recast (e : RespInfo) (exc : PyExc) :
    response_for_error (.info e) (some exc) =
      { body := { code := RSINFO.REQUEST_VALIDATION_ERROR.code,
                  reason := RSINFO.REQUEST_VALIDATION_ERROR.reason,
                  message := exc.typeName ++ ": " ++ exc.text },
        status_code := RSINFO.REQUEST_VALIDATION_ERROR.http_status } :=
  rfl

/-- C4 counterexample: on driver code `"gkpj"` the handler's response
message is the Chinese string `"数据已存在"`, not the English string
`"data already exists"` the claim states. -/
theorem integrity_handler_english_message_cex :
    integrity_exception_handler { code := some "gkpj" } =
      .ok { body := { code := RFInfo.FAILED.code, reason := "data exist",
                      message := "数据已存在" },
            status_code := RFInfo.FAILED.http_status } ∧
    "数据已存在" ≠ "data already exists" :=
  ⟨rfl, by decide⟩

/-- C4 amended: if the exception's driver code equals `"gkpj"`, the handler
returns the `FAILED` entry with reason `"data exist"` and message
`"数据已存在"` (Chinese for "data already exists"); for any other driver
code (including the absent code `None`), the original exception is
re-raised unchanged. -/
theorem integrity_handler_gkpj_normalizes :
    (∀ exc : IntegrityError, exc.code = some "gkpj" →
      integrity_exception_handler exc =
        .ok { body := { code := RFInfo.FAILED.code, reason := "data exist",
                        message := "数据已存在" },
              status_code := RFInfo.FAILED.http_status }) ∧
    (∀ exc : IntegrityError, exc.code ≠ some "gkpj" →
      integrity_exception_handler exc = .error exc) := by
  constructor
  · intro exc h
    simp [integrity_exception_handler, h]
    rfl
  · intro exc h
    simp [integrity_exception_handler, h]

/-- C4 witness: the amended statement applied at driver codes `"gkpj"` and
`"e3q8"`. -/
theorem integrity_handler_gkpj_normalizes_witness :
    integrity_exception_handler { code := some "gkpj" } =
      .ok { body := { code := RFInfo.FAILED.code, reason := "data exist",
                      message := "数据已存在" },
            status_code := RFInfo.FAILED.http_status } ∧
    integrity_exception_handler { code := some "e3q8" } =
      .error { code := some "e3q8" } :=
  ⟨integrity_handler_gkpj_normalizes.1 { code := some "gkpj" } rfl,
   integrity_handler_gkpj_normalizes.2 { code := some "e3q8" } (by decide)⟩

/-- C5 counterexample: with namespace name `"a.b"` (settings prefix
`"a__b"`) and environment variables `A__B__X=5`, `A__B__Y__Z=9`, the claim
says `X` is loaded with value `5`; in fact `startswith` is case-sensitive,
neither variable matches, and the settings mapping is returned unchanged
(`X` keeps its default `0`). -/
theorem auto_load_uppercase_cex :
    auto_load "a.b" [("A__B__X", "5"), ("A__B__Y__Z", "9")]
        [("X", PyValue.pyint 0)] =
      .ok [("X", PyValue.pyint 0)] ∧
    PyValue.pyint 0 ≠ PyValue.pyint 5 :=
  ⟨rfl, by decide⟩

/-- C5 amended: `auto_load` matches environment variable names
case-sensitively against the settings prefix alone (the `"__"` separator is
not part of the `startswith` test), strips `len(prefix) + 2` characters to
obtain the local key, and skips entries whose remaining key is empty or
contains `"__"`. With prefix `"a__b"` and case-matching variables
`a__b__X=5` and `a__b__Y__Z=9`, only `X` is loaded (reparsed to the integer
`5` since its default is a non-string); the uppercase `A__B__X` and
`A__B__Y__Z` match nothing; and a variable such as `a__bZZ_Q` that extends
the prefix without the separator is still loaded, under the key left after
dropping `len(prefix) + 2` characters. -/
theorem auto_load_matching_amended :
    (auto_load "a.b" [("a__b__X", "5"), ("a__b__Y__Z", "9")]
        [("X", PyValue.pyint 0), ("Y", PyValue.pyint 7)] =
      .ok [("X", PyValue.pyint 5), ("Y", PyValue.pyint 7)]) ∧
    (auto_load "a.b" [("A__B__X", "5"), ("A__B__Y__Z", "9")]
        [("X", PyValue.pyint 0), ("Y", PyValue.pyint 7)] =
      .ok [("X", PyValue.pyint 0), ("Y", PyValue.pyint 7)]) ∧
    (auto_load "a.b" [("a__bZZ_Q", "zz")] [] =
      .ok [("_Q", PyValue.pystr "zz")]) ∧
    (∀ (sp : String) (st : Settings) (kv : String × String),
      (List.isPrefixOf sp.data kv.1.data = false ∨
        kv.1.drop (sp.length + 2) = "" ∨
        containsSep (kv.1.drop (sp.length + 2)) = true) →
      auto_load_step sp st kv = .ok st) := by
  refine ⟨rfl, rfl, rfl, ?_⟩
  intro sp st kv h
  by_cases hp : List.isPrefixOf sp.data kv.1.data
  · rcases h with h | h | h
    · simp [hp] at h
    · simp [auto_load_step, hp, h]
    · simp [auto_load_step, hp, h]
  · simp [auto_load_step, hp]

/-- C5 witness: the skip clause of the amended statement applied to an
environment entry that does not start with the prefix. -/
theorem auto_load_matching_amended_witness :
    auto_load_step "a__b" [] ("other", "1") = .ok [] :=
  auto_load_matching_amended.2.2.2 "a__b" [] ("other", "1")
    (Or.inl (by decide))

/-- C6: for every namespace name without a `"."` separator, `auto_load`
raises the configuration error immediately: whatever the process
environment and target mapping are, the result is the error (no
environment entry is consumed and no settings update is produced). -/
theorem auto_load_invalid_name_error (name : String)
    (environ : List (String × String)) (settings : Settings)
    (h : name.data.contains '.' = false) :
    auto_load name environ settings = .error (invalid_name_msg name) := by
  have h' : ¬ (name.data.contains '.' = true) := by rw [h]; decide
  unfold auto_load
  rw [if_pos h']

/-- C6 witness: the unqualified name `"settings"` fails with the
configuration error. -/
theorem auto_load_invalid_name_error_witness :
    auto_load "settings" [("settings__x", "1")] [] =
      .error (invalid_name_msg "settings") :=
  auto_load_invalid_name_error "settings" [("settings__x", "1")] []
    (by decide)

/-- C7: for every typed loader and variable name, an unset variable yields
the default exactly as given — the equation holds for every `loader`, so
the default is never passed through the type parser — and a set variable
yields exactly the loader applied to the raw text, so a parsing failure
propagates as the raised error. Concretely, `Env.int "X" 5` returns
`5` when `X` is unset, `42` when `X="42"`, and the `int()` parse error when
`X="abc"`. -/
theorem env_loader_default_and_parse :
    (∀ (T : Type) (envm : Environ) (name : String)
        (loader : String → Except String T) (default : T)
        (toView : T → Option String) (cs : Bool),
      envm name = none →
      Env.general_loader envm name loader default toView cs = .ok default) ∧
    (∀ (T : Type) (envm : Environ) (name : String)
        (loader : String → Except String T) (default : T)
        (toView : T → Option String) (cs : Bool) (s : String),
      envm name = some s →
      Env.general_loader envm name loader default toView cs = loader s) ∧
    Env.int (fun _ => none) "X" 5 false = .ok 5 ∧
    Env.int (fun n => if n = "X" then some "42" else none) "X" 5 false =
      .ok 42 ∧
    Env.int (fun n => if n = "X" then some "abc" else none) "X" 5 false =
      .error "invalid literal for int() with base 10: abc" := by
  refine ⟨?_, ?_, rfl, rfl, rfl⟩
  · intro T envm name loader default toView cs h
    simp [Env.general_loader, h]
    rfl
  · intro T envm name loader default toView cs s h
    cases hl : loader s <;> simp [Env.general_loader, h, hl]

/-- C7 witness: the two general clauses applied to `Env.py_int` at an unset
and at a set variable. -/
theorem env_loader_default_and_parse_witness :
    Env.general_loader (fun _ => none) "K" Env.py_int 7 (fun _ => none)
        false = .ok 7 ∧
    Env.general_loader (fun _ => some "9") "K" Env.py_int 7 (fun _ => none)
        false = Env.py_int "9" :=
  ⟨env_loader_default_and_parse.1 Int (fun _ => none) "K" Env.py_int 7
      (fun _ => none) false rfl,
   env_loader_default_and_parse.2.1 Int (fun _ => some "9") "K" Env.py_int
      7 (fun _ => none) false "9" rfl⟩

/-- C8: for every set value `v`, `Env.boolean` returns `true` exactly when
`v` lowercased is one of `"true"`, `"1"`, `"yes"` — so the test is
case-insensitive (`"TRUE"`, `"Yes"` yield `true`) — and `false` for every
other set value, including `"false"`, `"0"` and the empty string. -/
theorem env_boolean_membership :
    (∀ (envm : Environ) (name v : String) (d cs : Bool),
      envm name = some v →
      Env.boolean envm name d cs =
        .ok (decide (Env.py_lower v = "true" ∨ Env.py_lower v = "1" ∨
          Env.py_lower v = "yes"))) ∧
    Env.boolean (fun _ => some "TRUE") "B" false false = .ok true ∧
    Env.boolean (fun _ => some "Yes") "B" false false = .ok true ∧
    Env.boolean (fun _ => some "false") "B" false false = .ok false ∧
    Env.boolean (fun _ => some "0") "B" false false = .ok false ∧
    Env.boolean (fun _ => some "") "B" false false = .ok false := by
  refine ⟨?_, rfl, rfl, rfl, rfl, rfl⟩
  intro envm name v d cs h
  simp [Env.boolean, Env.general_loader, h, List.contains, Bool.decide_or,
    Bool.or_assoc, beq_iff_eq]

/-- C8 witness: the membership clause applied at the set value `"yEs"`. -/
theorem env_boolean_membership_witness :
    Env.boolean (fun _ => some "yEs") "B" false false =
      .ok (decide (Env.py_lower "yEs" = "true" ∨ Env.py_lower "yEs" = "1" ∨
        Env.py_lower "yEs" = "yes")) :=
  env_boolean_membership.1 (fun _ => some "yEs") "B" "yEs" false false rfl

/-- C9: the value returned by `Env.general_loader` — and hence by every
typed loader — is identical whether `contains_secret` is `true` or `false`:
the redacted `log_value` is computed and discarded, with no observable
effect on the result. -/
theorem env_secret_flag_no_effect :
    (∀ (T : Type) (envm : Environ) (name : String)
        (loader : String → Except String T) (default : T)
        (toView : T → Option String),
      Env.general_loader envm name loader default toView true =
        Env.general_loader envm name loader default toView false) ∧
    (∀ (envm : Environ) (name : String) (d : Int),
      Env.int envm name d true = Env.int envm name d false) ∧
    (∀ (envm : Environ) (name d : String),
      Env.string envm name d true = Env.string envm name d false) ∧
    (∀ (envm : Environ) (name : String) (d : Bool),
      Env.boolean envm name d true = Env.boolean envm name d false) :=
  ⟨fun _ _ _ _ _ _ => rfl, fun _ _ _ => rfl, fun _ _ _ => rfl,
   fun _ _ _ => rfl⟩

/-- Helper: `auto_load` on a one-entry environment reduces to the single
loop-body step. -/
theorem auto_load_single (settings : Settings) (v : String) :
    auto_load "a.b" [("a__b__X", v)] settings =
      auto_load_step "a__b" settings ("a__b__X", v) := by
  have e : auto_load "a.b" [("a__b__X", v)] settings =
      auto_load_step "a__b" settings ("a__b__X", v) >>= pure := rfl
  rw [e, bind_pure]

/-- Helper: the loop-body step at prefix `"a__b"` and variable `a__b__X`,
expressed by the branch on the existing value under key `"X"`. -/
theorem auto_load_step_X (settings : Settings) (v : String) :
    auto_load_step "a__b" settings ("a__b__X", v) =
      match lookup settings "X" with
      | some ex =>
        if ex ≠ PyValue.pynone ∧ ex.isStr = false then
          match reparse v with
          | some pv => Except.ok (update settings "X" pv)
          | none => Except.error ("malformed value for X")
        else Except.ok (update settings "X" (PyValue.pystr v))
      | none => Except.ok (update settings "X" (PyValue.pystr v)) := by
  unfold auto_load_step
  norm_num
  rfl

/-- C10: for the local key `"X"`, when the key is absent from the target
mapping, or present with value `None`, or present with a string value, the
raw environment text is assigned unchanged — no JSON or literal reparse is
attempted, so an unparseable text still loads; the JSON-then-literal
reparse governs the outcome exactly when the existing value is present,
not `None`, and not a string. -/
theorem auto_load_reparse_condition (settings : Settings) (v : String) :
    (lookup settings "X" = none →
      auto_load "a.b" [("a__b__X", v)] settings =
        .ok (update settings "X" (PyValue.pystr v))) ∧
    (lookup settings "X" = some PyValue.pynone →
      auto_load "a.b" [("a__b__X", v)] settings =
        .ok (update settings "X" (PyValue.pystr v))) ∧
    (∀ s : String, lookup settings "X" = some (PyValue.pystr s) →
      auto_load "a.b" [("a__b__X", v)] settings =
        .ok (update settings "X" (PyValue.pystr v))) ∧
    (∀ pv : PyValue, lookup settings "X" = some pv →
      pv ≠ PyValue.pynone → pv.isStr = false →
      auto_load "a.b" [("a__b__X", v)] settings =
        match reparse v with
        | some pv2 => .ok (update settings "X" pv2)
        | none => .error ("malformed value for X")) := by
  refine ⟨?_, ?_, ?_, ?_⟩
  · intro h
    rw [auto_load_single, auto_load_step_X, h]
  · intro h
    rw [auto_load_single, auto_load_step_X, h]
    simp
  · intro s h
    rw [auto_load_single, auto_load_step_X, h]
    simp [PyValue.isStr]
  · intro pv h h1 h2
    rw [auto_load_single, auto_load_step_X, h]
    exact if_pos ⟨h1, h2⟩

/-- C10 witness: with existing value `None` under `"X"`, the unparseable
text `"[unparse"` is still assigned unchanged as a string. -/
theorem auto_load_reparse_condition_witness :
    auto_load "a.b" [("a__b__X", "[unparse")] [("X", PyValue.pynone)] =
      .ok [("X", PyValue.pystr "[unparse")] :=
  (auto_load_reparse_condition [("X", PyValue.pynone)] "[unparse").2.1 rfl

end PublicServer
